import Mathlib

/-!
Verification of the mahjong game-state engine (backend/app): the tile codec
(`models/mahjong.py`), the dict-state operation handlers and the typed async
operations (`services/mahjong_game_service.py`), and the persistence wrapper.
Python dictionaries keyed by player id are embedded as total functions
`Nat → _` (an absent key and an empty default coincide for the fields used
here, since the initial state always creates all four seats); `uuid4` meld
identifiers and wall-clock timestamps are passed in as explicit parameters;
`random.shuffle` of the tile pool is dropped (it permutes the pool; no claim
depends on the order).
-/

namespace Mahjong

/-- Tile suits, from `TileType` in models/mahjong.py. -/
inductive TileType where
  | wan
  | tiao
  | tong
  | zi
deriving DecidableEq, Repr

/-- A mahjong tile, from `Tile` in models/mahjong.py.  The value is kept as an
integer so that `from_code` can be applied to arbitrary (also negative)
codes. -/
structure Tile where
  type : TileType
  value : Int
deriving DecidableEq, Repr

/-- `Tile.from_code` (models/mahjong.py lines 22-34); the `ValueError`
("Invalid tile code") raised outside the defined ranges is embedded as
`none`. -/
def Tile.from_code (code : Int) : Option Tile :=
  if 1 ≤ code ∧ code ≤ 9 then some { type := TileType.wan, value := code }
  else if 11 ≤ code ∧ code ≤ 19 then some { type := TileType.tiao, value := code - 10 }
  else if 21 ≤ code ∧ code ≤ 29 then some { type := TileType.tong, value := code - 20 }
  else if 31 ≤ code ∧ code ≤ 37 then some { type := TileType.zi, value := code - 30 }
  else none

/-- `Tile.to_code` (models/mahjong.py lines 36-45). -/
def Tile.to_code (t : Tile) : Int :=
  match t.type with
  | TileType.wan => t.value
  | TileType.tiao => t.value + 10
  | TileType.tong => t.value + 20
  | TileType.zi => t.value + 30

/-- The valid tile domain of the codec claim: characters/bamboo/circles with
rank 1-9, honor with rank 1-7. -/
def Tile.valid (t : Tile) : Bool :=
  match t.type with
  | TileType.zi => decide (1 ≤ t.value) && decide (t.value ≤ 7)
  | _ => decide (1 ≤ t.value) && decide (t.value ≤ 9)

/-- Meld kinds of the typed model (`MeldType` in models/mahjong.py). -/
inductive MeldType where
  | peng
  | gang
  | chi
deriving DecidableEq, Repr

/-- The typed meld (`Meld` in models/mahjong.py): only `type`, `tiles` and
`exposed` are declared fields; the extra `gang_type` / `source_player`
keywords passed by the async service methods are silently dropped by the
model (pydantic v1 ignores undeclared keyword arguments by default). -/
structure Meld where
  type : MeldType
  tiles : List Tile
  exposed : Bool
deriving DecidableEq, Repr

/-- The typed hand (`HandTiles` in models/mahjong.py). -/
structure HandTiles where
  tiles : List Tile
  melds : List Meld
deriving DecidableEq, Repr

/-- Modelled from the spec: the `GangType` enumeration is imported by the
service from a models module that is not present under src/; its three
variants and their string values are reconstructed from the service's
`gang_type_map` targets (`an_gang`, `ming_gang`, `jia_gang`) and from the
spec's kong variants (concealed / claimed / promoted). -/
inductive GangType where
  | an_gang
  | ming_gang
  | jia_gang
deriving DecidableEq, Repr

/-- Modelled from the spec: `TileOperationRequest` is imported from a models
module not present under src/; its fields are reconstructed from the
operation request contract (spec section 6) and from every construction site
in api/mahjong.py (`player_id`, `operation_type`, `tile`,
`source_player_id`, `game_id`). -/
structure TileOperationRequest where
  player_id : Nat
  operation_type : String
  tile : Tile
  source_player_id : Option Nat
  game_id : Option String
deriving DecidableEq, Repr

/-- A dict-shaped meld as built by `_handle_peng` / `_handle_gang`
(services/mahjong_game_service.py): keys `id` (a uuid string), `type`,
`tiles`, `exposed`, `gang_type`, `source_player`, `original_peng_id`,
`timestamp`. -/
structure DMeld where
  id : String
  type : String
  tiles : List Tile
  exposed : Bool
  gang_type : Option String
  source_player : Option Nat
  original_peng_id : Option String
  timestamp : Nat
deriving DecidableEq, Repr

/-- A dict-shaped player hand: keys `tiles` and `melds`. -/
structure DHand where
  tiles : List Tile
  melds : List DMeld
deriving DecidableEq, Repr

/-- A dict-shaped history entry as appended by the handlers: keys
`player_id`, `action_type`, `tiles`, `timestamp`. -/
structure DAction where
  player_id : Nat
  action_type : String
  tiles : List Tile
  timestamp : Nat
deriving DecidableEq, Repr

/-- The `last_action` dict written by `_handle_discard`: keys `type`,
`player`, `tile`, `timestamp`. -/
structure LastAction where
  type : String
  player : Nat
  tile : Tile
  timestamp : Nat
deriving DecidableEq, Repr

/-- The service's `_game_state` dictionary (keys as created by
`_create_initial_state`).  Player-keyed sub-dictionaries become total
functions on player ids. -/
structure GState where
  game_id : Option String
  player_hands : Nat → DHand
  discarded_tiles : List Tile
  player_discarded_tiles : Nat → List Tile
  actions_history : List DAction
  current_player : Nat
  game_started : Bool
  last_action : Option LastAction
  tile_pool : List Tile
  test_mode : Bool

/-- Point update of a player-keyed map (a dict store `d[k] = v`). -/
def upd {α : Type} (f : Nat → α) (k : Nat) (v : α) : Nat → α :=
  fun i => if i = k then v else f i

/-- The 108-tile pool of `_initialize_tile_pool` (wan/tiao/tong, values 1-9,
4 copies each); the final `random.shuffle` is a permutation and is not
modelled. -/
def _initialize_tile_pool : List Tile :=
  [TileType.wan, TileType.tiao, TileType.tong].flatMap fun ty =>
    (List.range' 1 9).flatMap fun v =>
      List.replicate 4 { type := ty, value := (v : Int) }

/-- `_create_initial_state` (services/mahjong_game_service.py lines 329-355);
the generated uuid `game_id` is passed in. -/
def _create_initial_state (gid : String) : GState where
  game_id := some gid
  player_hands := fun _ => { tiles := [], melds := [] }
  discarded_tiles := []
  player_discarded_tiles := fun _ => []
  actions_history := []
  current_player := 0
  game_started := false
  last_action := none
  tile_pool := _initialize_tile_pool
  test_mode := true

/-- `add_tile_to_hand` (lines 84-116): appends the concrete tile to the given
player's `tiles` list — for every seat, 0-3 alike — and records an
`add_hand` history entry.  The Python `return False` is reachable only from
a raised exception inside the `try`; the body is total, so the embedded
result flag is always `true`. -/
def add_tile_to_hand (now : Nat) (player_id : Nat) (tile : Tile) (st : GState) :
    GState × Bool :=
  let hand := st.player_hands player_id
  ({ st with
      player_hands := upd st.player_hands player_id
        { hand with tiles := hand.tiles ++ [tile] }
      actions_history := st.actions_history ++
        [{ player_id := player_id, action_type := "add_hand", tiles := [tile],
           timestamp := now }] },
    true)

/-- `_handle_discard` (lines 402-442): turn check (skipped in test mode),
append to the per-player and global discard piles, record `last_action`,
advance `current_player` unless in test mode.  No hand `tiles` list is
touched. -/
def _handle_discard (now : Nat) (req : TileOperationRequest) (st : GState) :
    GState × Bool × String :=
  let test_mode := st.test_mode
  if ¬ test_mode ∧ st.current_player ≠ req.player_id then
    (st, false, "不是该玩家的回合")
  else
    let st1 := { st with
      player_discarded_tiles := upd st.player_discarded_tiles req.player_id
        (st.player_discarded_tiles req.player_id ++ [req.tile])
      discarded_tiles := st.discarded_tiles ++ [req.tile]
      last_action := some { type := "discard", player := req.player_id,
                            tile := req.tile, timestamp := now } }
    let st2 := if ¬ test_mode then
        { st1 with current_player := (req.player_id + 1) % 4 }
      else st1
    (st2, true, "弃牌成功")

/-- `_handle_peng` (lines 444-490): append a 3-tile exposed `peng` meld and a
history entry.  No hand `tiles` list is touched and nothing is validated. -/
def _handle_peng (nid : String) (now : Nat) (req : TileOperationRequest) (st : GState) :
    GState × Bool × String :=
  let meld : DMeld :=
    { id := nid, type := "peng", tiles := [req.tile, req.tile, req.tile],
      exposed := true, gang_type := none, source_player := req.source_player_id,
      original_peng_id := none, timestamp := now }
  let hand := st.player_hands req.player_id
  let st1 := { st with
    player_hands := upd st.player_hands req.player_id
      { hand with melds := hand.melds ++ [meld] }
    actions_history := st.actions_history ++
      [{ player_id := req.player_id, action_type := "peng", tiles := [req.tile],
         timestamp := now }] }
  (st1, true, "碰牌成功")

/-- The `gang_type_map` dict of `_handle_gang` with its `.get` default
`an_gang`. -/
def gangTypeMap (op : String) : String :=
  if op = "angang" then "an_gang"
  else if op = "zhigang" then "ming_gang"
  else if op = "jiagang" then "jia_gang"
  else "an_gang"

/-- The matching condition of the `jiagang` loop in `_handle_gang`: an
existing meld of type `peng` whose first tile equals the requested tile. -/
def isMatchingPeng (tile : Tile) (m : DMeld) : Bool :=
  m.type == "peng" &&
    match m.tiles with
    | [] => false
    | t0 :: _ => t0 == tile

/-- The search half of the `jiagang` loop: first matching peng meld, if any. -/
def findMatchingPeng (tile : Tile) : List DMeld → Option DMeld
  | [] => none
  | m :: rest =>
    if isMatchingPeng tile m then some m else findMatchingPeng tile rest

/-- The removal half of the `jiagang` loop (`melds.remove(meld_item)` on the
first matching element; meld ids are fresh uuids, so the first element equal
to the found one is the found one itself). -/
def removeMatchingPeng (tile : Tile) : List DMeld → List DMeld
  | [] => []
  | m :: rest =>
    if isMatchingPeng tile m then rest else m :: removeMatchingPeng tile rest

/-- `_handle_gang` (lines 492-561): build a 4-tile `gang` meld (exposed
unless `an_gang`); for `jiagang`, additionally remove the first matching
peng meld and record its id in `original_peng_id`; append the meld and a
history entry.  No hand `tiles` list is touched, and a `jiagang` with no
matching peng still succeeds. -/
def _handle_gang (nid : String) (now : Nat) (req : TileOperationRequest) (st : GState) :
    GState × Bool × String :=
  let gang_type := gangTypeMap req.operation_type
  let hand := st.player_hands req.player_id
  let meld0 : DMeld :=
    { id := nid, type := "gang",
      tiles := [req.tile, req.tile, req.tile, req.tile],
      exposed := gang_type != "an_gang",
      gang_type := some gang_type,
      source_player := if gang_type = "ming_gang" then req.source_player_id else none,
      original_peng_id := none, timestamp := now }
  let pair : DMeld × List DMeld :=
    if req.operation_type = "jiagang" then
      match findMatchingPeng req.tile hand.melds with
      | some m => ({ meld0 with original_peng_id := some m.id },
                   removeMatchingPeng req.tile hand.melds)
      | none => (meld0, hand.melds)
    else (meld0, hand.melds)
  let st1 := { st with
    player_hands := upd st.player_hands req.player_id
      { hand with melds := pair.2 ++ [pair.1] }
    actions_history := st.actions_history ++
      [{ player_id := req.player_id, action_type := "gang_" ++ gang_type,
         tiles := [req.tile], timestamp := now }] }
  (st1, true, "杠牌成功 (" ++ gang_type ++ ")")

/-- Outcome of a handler body seen from `process_operation`'s `try`: either a
normal `(state, success, message)` return, or a raised exception carrying
the state as mutated so far and the exception text. -/
def HandlerOutcome : Type :=
  Except (GState × String) (GState × Bool × String)

/-- The `except Exception as e: return False, str(e)` boundary of
`process_operation` (lines 310-311): a raised fault becomes a
`(false, message)` result and is never re-raised. -/
def catchToResult (body : HandlerOutcome) : GState × Bool × String :=
  match body with
  | Except.ok r => r
  | Except.error (st, msg) => (st, false, msg)

/-- The `if/elif` dispatch of `process_operation` (lines 298-309).  Every
embedded handler body is total, hence always `Except.ok`; the `Except` shape
records where a Python-level fault would surface. -/
def dispatchBody (nid : String) (now : Nat) (req : TileOperationRequest) (st : GState) :
    HandlerOutcome :=
  if req.operation_type = "hand" then
    let r := add_tile_to_hand now req.player_id req.tile st
    Except.ok (r.1, r.2, if r.2 then "添加手牌成功" else "添加手牌失败")
  else if req.operation_type = "discard" then
    Except.ok (_handle_discard now req st)
  else if req.operation_type = "peng" then
    Except.ok (_handle_peng nid now req st)
  else if req.operation_type = "gang" ∨ req.operation_type = "angang" ∨
      req.operation_type = "zhigang" ∨ req.operation_type = "jiagang" then
    Except.ok (_handle_gang nid now req st)
  else
    Except.ok (st, false, "不支持的操作类型: " ++ req.operation_type)

/-- `process_operation` (lines 291-311): session check first — the Python
guard is `if request.game_id and ...`, a truthiness test, so the check fires
only when `game_id` is present AND non-empty and differs from the live
state's; an absent or empty-string `game_id` skips the check.  Then dispatch
with the fault-to-result boundary. -/
def process_operation (nid : String) (now : Nat) (req : TileOperationRequest)
    (st : GState) : GState × Bool × String :=
  match req.game_id with
  | some gid =>
    if gid ≠ "" ∧ st.game_id ≠ some gid then (st, false, "游戏ID不匹配: " ++ gid)
    else catchToResult (dispatchBody nid now req st)
  | none => catchToResult (dispatchBody nid now req st)

/-- The inner deal loop of `start_game`: draw `n` tiles for one player,
popping from the end of `tile_pool`; an empty pool aborts with
"牌库不足", keeping the partially dealt state. -/
def dealLoop (pid : Nat) : Nat → GState → Except (GState × String) GState
  | 0, st => Except.ok st
  | n + 1, st =>
    match st.tile_pool.getLast? with
    | none => Except.error (st, "牌库不足")
    | some tile =>
      let hand := st.player_hands pid
      dealLoop pid n { st with
        tile_pool := st.tile_pool.dropLast
        player_hands := upd st.player_hands pid
          { hand with tiles := hand.tiles ++ [tile] } }

/-- The outer deal loop of `start_game`: 13 tiles for each listed player. -/
def dealAll : List Nat → GState → Except (GState × String) GState
  | [], st => Except.ok st
  | p :: ps, st =>
    match dealLoop p 13 st with
    | Except.error e => Except.error e
    | Except.ok st1 => dealAll ps st1

/-- `start_game` (lines 357-379): refuse when already started; otherwise deal
13 tiles to each of the four players from the end of the pool and set
`game_started`. -/
def start_game (st : GState) : GState × Bool × String :=
  if st.game_started then (st, false, "游戏已经开始")
  else
    match dealAll [0, 1, 2, 3] st with
    | Except.error (st1, msg) => (st1, false, msg)
    | Except.ok st1 => ({ st1 with game_started := true }, true, "游戏开始，发牌完成")

/-- The persistence backend seen through `_save_state`: a write-availability
flag and the currently persisted document. -/
structure Store where
  ok : Bool
  doc : Option GState

/-- `_save_state` (lines 47-53): write the whole document; a raised store
error is caught and only printed — the caller cannot observe it and the
persisted document is left as it was. -/
def _save_state (st : GState) (store : Store) : Store :=
  if store.ok then { store with doc := some st } else store

/-- `set_game_state` / `set_game_state_dict` (lines 59-77): replace the
in-memory state, then `_save_state`; returns `True` — the swallowed save
failure never turns the result into `False`. -/
def set_game_state_dict (newState : GState) (store : Store) :
    GState × Store × Bool :=
  (newState, _save_state newState store, true)

/-- `_reduce_hand_tiles` inner loop body (lines 272-289), one iteration: on a
non-empty hand remove the first copy of the preferred tile if present,
otherwise the head; an empty hand is left alone (the loop `break`s). -/
def reduceOnce (preferred : Option Tile) (l : List Tile) : List Tile :=
  match l with
  | [] => []
  | _ :: _ =>
    match preferred with
    | some p => if p ∈ l then l.erase p else l.tail
    | none => l.tail

/-- `_reduce_hand_tiles` (lines 259-289): pad the hand with generic `1wan`
filler tiles up to `count`, then remove `count` tiles, preferring copies of
the given tile. -/
def _reduce_hand_tiles (count : Nat) (preferred : Option Tile) (tiles : List Tile) :
    List Tile :=
  let padded := tiles ++ List.replicate (count - tiles.length)
    { type := TileType.wan, value := 1 }
  (reduceOnce preferred)^[count] padded

/-- `peng_tile` (lines 169-207), hand-level: append the 3-tile exposed peng
meld (the `source_player` keyword is dropped by the `Meld` model) and reduce
the hand by 2 for player 0, else by 3, preferring copies of the claimed
tile. -/
def peng_tile (player_id : Nat) (tile : Tile) (source_player_id : Option Nat)
    (hand : HandTiles) : HandTiles :=
  let meld : Meld := { type := MeldType.peng, tiles := [tile, tile, tile],
                       exposed := true }
  { tiles := _reduce_hand_tiles (if player_id = 0 then 2 else 3) (some tile) hand.tiles
    melds := hand.melds ++ [meld] }

/-- `gang_tile` (lines 209-257), hand-level: append the 4-tile gang meld
(exposed unless `an_gang`; the extra keywords are dropped by the `Meld`
model) and reduce the hand by the variant-dependent count. -/
def gang_tile (player_id : Nat) (tile : Tile) (g : GangType)
    (source_player_id : Option Nat) (hand : HandTiles) : HandTiles :=
  let meld : Meld := { type := MeldType.gang, tiles := [tile, tile, tile, tile],
                       exposed := decide (g ≠ GangType.an_gang) }
  let count : Nat :=
    match g with
    | GangType.an_gang => if player_id = 0 then 4 else 4
    | GangType.ming_gang => if player_id = 0 then 3 else 4
    | GangType.jia_gang => 1
  { tiles := _reduce_hand_tiles count (some tile) hand.tiles
    melds := hand.melds ++ [meld] }

/-- The hand-search loop of the async `discard_tile` (lines 131-135). -/
def findTileIdx (tile : Tile) : List Tile → Option Nat
  | [] => none
  | t :: rest =>
    if t = tile then some 0 else (findTileIdx tile rest).map (· + 1)

/-- The hand mutation of the async `discard_tile` (lines 121-167): remove the
tile at the found index; when the tile is absent, first append it and then
remove it again (net: hand unchanged), so the discard always succeeds. -/
def discard_tile_tiles (tile : Tile) (tiles : List Tile) : List Tile :=
  match findTileIdx tile tiles with
  | some i => tiles.eraseIdx i
  | none => (tiles ++ [tile]).eraseIdx tiles.length

/-- A minimal concrete game state (all four seats empty, manual/test mode on),
for concrete evaluations. -/
def testState : GState where
  game_id := none
  player_hands := fun _ => { tiles := [], melds := [] }
  discarded_tiles := []
  player_discarded_tiles := fun _ => []
  actions_history := []
  current_player := 0
  game_started := false
  last_action := none
  tile_pool := []
  test_mode := true

/-- A concrete non-manual state: test mode off, player 0 to move. -/
def ncState : GState :=
  { testState with test_mode := false }

/-- A concrete not-yet-started state with a 52-tile pool. -/
def dealState : GState :=
  { testState with tile_pool := List.replicate 52 { type := TileType.wan, value := 1 } }

/-- A discard request for the given seat. -/
def discardReq (pid : Nat) (t : Tile) : TileOperationRequest :=
  { player_id := pid, operation_type := "discard", tile := t,
    source_player_id := none, game_id := none }

/-- `n` repeated discards, each issued by whoever is the current player of
the state reached so far. -/
def discardSeq (now : Nat) (t : Tile) (st : GState) : Nat → GState
  | 0 => st
  | n + 1 =>
    let st1 := discardSeq now t st n
    (_handle_discard now (discardReq st1.current_player t) st1).1

/-- A request carrying a session id that cannot match `testState` (whose
`game_id` is `none`). -/
def mismatchReq : TileOperationRequest :=
  { player_id := 0, operation_type := "discard",
    tile := { type := TileType.wan, value := 1 },
    source_player_id := none, game_id := some "zzz" }

/-- A request carrying an empty-string session id — falsy in Python, so the
program treats it as unset. -/
def emptyGidReq : TileOperationRequest :=
  { player_id := 0, operation_type := "discard",
    tile := { type := TileType.wan, value := 1 },
    source_player_id := none, game_id := some "" }

/-- A live state whose session id is a non-empty uuid-like string. -/
def liveState : GState :=
  { testState with game_id := some "live" }

/-- A promoted-kong (`jiagang`) request for tile 5wan by seat 1. -/
def jiagangReq : TileOperationRequest :=
  { player_id := 1, operation_type := "jiagang",
    tile := { type := TileType.wan, value := 5 },
    source_player_id := none, game_id := none }

/-- A non-manual state in which seat 0 holds exactly one 5wan. -/
def c7State : GState :=
  { ncState with
    player_hands := upd ncState.player_hands 0
      { tiles := [{ type := TileType.wan, value := 5 }], melds := [] } }

/-- A store whose writes fail (`StoreUnavailableError` territory), currently
holding the serialized `ncState`. -/
def storeDown : Store :=
  { ok := false, doc := some ncState }

/-- A triplet (peng) meld of 5wan with identifier `p0`. -/
def c1Peng : DMeld :=
  { id := "p0", type := "peng",
    tiles := [{ type := TileType.wan, value := 5 },
              { type := TileType.wan, value := 5 },
              { type := TileType.wan, value := 5 }],
    exposed := true, gang_type := none, source_player := some 2,
    original_peng_id := none, timestamp := 3 }

/-- A state in which seat 1 owns exactly the triplet `c1Peng` and no tiles. -/
def c1State : GState :=
  { testState with
    player_hands := upd testState.player_hands 1 { tiles := [], melds := [c1Peng] } }

theorem upd_same {α : Type} (f : Nat → α) (k : Nat) (v : α) : upd f k v k = v := by
  simp [upd]

theorem upd_ne {α : Type} (f : Nat → α) (k : Nat) (v : α) {i : Nat} (h : i ≠ k) :
    upd f k v i = f i := by
  simp [upd, h]

/-- C4: for every tile in the valid domain (characters/bamboo/circles rank
1-9, honor rank 1-7), `from_code (to_code t) = t` following the code table
1-9 / 11-19 / 21-29 / 31-37, and `from_code` fails for every code outside
those four ranges — in particular for 0, 10, 20, 30, 38, and every negative
code. -/
theorem C4_codec_roundtrip :
    (∀ t : Tile, t.valid = true → Tile.from_code t.to_code = some t)
    ∧ (∀ c : Int,
        ¬ ((1 ≤ c ∧ c ≤ 9) ∨ (11 ≤ c ∧ c ≤ 19) ∨ (21 ≤ c ∧ c ≤ 29)
            ∨ (31 ≤ c ∧ c ≤ 37)) →
        Tile.from_code c = none)
    ∧ Tile.from_code 0 = none ∧ Tile.from_code 10 = none
    ∧ Tile.from_code 20 = none ∧ Tile.from_code 30 = none
    ∧ Tile.from_code 38 = none
    ∧ (∀ c : Int, c < 0 → Tile.from_code c = none) := by
  have hout : ∀ c : Int,
      ¬ ((1 ≤ c ∧ c ≤ 9) ∨ (11 ≤ c ∧ c ≤ 19) ∨ (21 ≤ c ∧ c ≤ 29)
          ∨ (31 ≤ c ∧ c ≤ 37)) →
      Tile.from_code c = none := by
    intro c hc
    simp only [Tile.from_code]
    rw [if_neg (by omega), if_neg (by omega), if_neg (by omega), if_neg (by omega)]
  refine ⟨?_, hout, by decide, by decide, by decide, by decide, by decide,
    fun c hc => hout c (by omega)⟩
  rintro ⟨ty, v⟩ hv
  cases ty <;>
    simp only [Tile.valid, Bool.and_eq_true, decide_eq_true_eq] at hv <;>
    simp only [Tile.from_code, Tile.to_code]
  · rw [if_pos (by omega)]
  · rw [if_neg (by omega), if_pos (by omega)]
    have h10 : v + 10 - 10 = v := by omega
    rw [h10]
  · rw [if_neg (by omega), if_neg (by omega), if_pos (by omega)]
    have h20 : v + 20 - 20 = v := by omega
    rw [h20]
  · rw [if_neg (by omega), if_neg (by omega), if_neg (by omega), if_pos (by omega)]
    have h30 : v + 30 - 30 = v := by omega
    rw [h30]

theorem C4_codec_roundtrip_witness :
    (Tile.valid { type := TileType.zi, value := 7 } = true
      ∧ Tile.from_code (Tile.to_code { type := TileType.zi, value := 7 })
          = some { type := TileType.zi, value := 7 })
    ∧ (¬ (((1 : Int) ≤ 100 ∧ (100 : Int) ≤ 9) ∨ ((11 : Int) ≤ 100 ∧ (100 : Int) ≤ 19)
          ∨ ((21 : Int) ≤ 100 ∧ (100 : Int) ≤ 29)
          ∨ ((31 : Int) ≤ 100 ∧ (100 : Int) ≤ 37))
        ∧ Tile.from_code 100 = none)
    ∧ ((-5 : Int) < 0 ∧ Tile.from_code (-5) = none) :=
  ⟨⟨by decide, C4_codec_roundtrip.1 { type := TileType.zi, value := 7 } (by decide)⟩,
   ⟨by decide, C4_codec_roundtrip.2.1 100 (by decide)⟩,
   ⟨by decide, C4_codec_roundtrip.2.2.2.2.2.2.2 (-5) (by decide)⟩⟩

/-- C5 counterexample: a request carrying the empty-string session id, which
differs from the live session's non-empty id, does NOT fail with a
session-mismatch result — the guard `if request.game_id and ...` is a
truthiness test, false for `""`, so the request dispatches normally (here a
discard that succeeds and mutates the discard pile). -/
theorem C5_processor_boundary_counterexample :
    emptyGidReq.game_id = some ""
    ∧ liveState.game_id ≠ some ""
    ∧ (process_operation "m" 0 emptyGidReq liveState).2.1 = true
    ∧ (process_operation "m" 0 emptyGidReq liveState).2.2 = "弃牌成功"
    ∧ (process_operation "m" 0 emptyGidReq liveState).1.discarded_tiles
        = [{ type := TileType.wan, value := 1 }] := by
  refine ⟨rfl, by decide, rfl, rfl, rfl⟩

/-- C5 (amended): the operation processor returns a structured result: a
request carrying a non-empty session id that differs from the live session's
fails with the session-mismatch message without dispatching (state
unchanged); a request whose session id is absent — or the empty string,
which Python's truthiness guard treats as unset — skips the session check
and dispatches; and the boundary converts a raised handler fault into a
`(false, message)` result instead of re-raising it. -/
theorem C5_processor_boundary_amended :
    (∀ (nid : String) (now : Nat) (req : TileOperationRequest) (st : GState)
        (gid : String), req.game_id = some gid → gid ≠ "" → st.game_id ≠ some gid →
        process_operation nid now req st = (st, false, "游戏ID不匹配: " ++ gid))
    ∧ (∀ (nid : String) (now : Nat) (req : TileOperationRequest) (st : GState),
        req.game_id = some "" →
        process_operation nid now req st = catchToResult (dispatchBody nid now req st))
    ∧ (∀ (nid : String) (now : Nat) (req : TileOperationRequest) (st : GState),
        req.game_id = none →
        process_operation nid now req st = catchToResult (dispatchBody nid now req st))
    ∧ (∀ (st : GState) (msg : String),
        catchToResult (Except.error (st, msg)) = (st, false, msg)) := by
  refine ⟨?_, ?_, ?_, ?_⟩
  · intro nid now req st gid hreq hne hst
    simp [process_operation, hreq, hne, hst]
  · intro nid now req st hreq
    simp [process_operation, hreq]
  · intro nid now req st hreq
    simp [process_operation, hreq]
  · intro st msg
    rfl

theorem C5_processor_boundary_amended_witness :
    mismatchReq.game_id = some "zzz"
    ∧ ("zzz" : String) ≠ ""
    ∧ testState.game_id ≠ some "zzz"
    ∧ process_operation "m" 0 mismatchReq testState
        = (testState, false, "游戏ID不匹配: " ++ "zzz") :=
  ⟨rfl, by decide, by decide,
   C5_processor_boundary_amended.1 "m" 0 mismatchReq testState "zzz" rfl
     (by decide) (by decide)⟩

theorem _handle_discard_test_mode (now : Nat) (req : TileOperationRequest)
    (st : GState) : (_handle_discard now req st).1.test_mode = st.test_mode := by
  unfold _handle_discard
  dsimp only
  split
  · rfl
  · split <;> rfl

theorem _handle_discard_advance (now : Nat) (req : TileOperationRequest)
    (st : GState) (h1 : st.test_mode = false)
    (h2 : req.player_id = st.current_player) :
    (_handle_discard now req st).2.1 = true
    ∧ (_handle_discard now req st).1.current_player = (st.current_player + 1) % 4 := by
  unfold _handle_discard
  dsimp only
  rw [if_neg (by simp [h1, h2])]
  rw [if_pos (by simp [h1])]
  simp [h2]

theorem discardSeq_test_mode (now : Nat) (t : Tile) (st : GState) :
    ∀ n, (discardSeq now t st n).test_mode = st.test_mode := by
  intro n
  induction n with
  | zero => rfl
  | succ n ih =>
    simp only [discardSeq]
    rw [_handle_discard_test_mode]
    exact ih

/-- C6: outside manual (test) mode, a discard by a seat other than
`current_player` fails with the not-your-turn message leaving the state
unchanged, and each successful discard advances `current_player` to
`(current_player + 1) % 4`, so repeated discards from player 0 produce the
sequence 0,1,2,3,0,...; in manual mode a discard by any seat succeeds the
turn check and never changes `current_player`. -/
theorem C6_turn_rotation :
    (∀ (now : Nat) (req : TileOperationRequest) (st : GState),
        st.test_mode = false → req.player_id ≠ st.current_player →
        _handle_discard now req st = (st, false, "不是该玩家的回合"))
    ∧ (∀ (now : Nat) (req : TileOperationRequest) (st : GState),
        st.test_mode = false → req.player_id = st.current_player →
        (_handle_discard now req st).2.1 = true
        ∧ (_handle_discard now req st).1.current_player = (st.current_player + 1) % 4)
    ∧ (∀ (now : Nat) (req : TileOperationRequest) (st : GState),
        st.test_mode = true →
        (_handle_discard now req st).2.1 = true
        ∧ (_handle_discard now req st).1.current_player = st.current_player)
    ∧ (∀ (now : Nat) (t : Tile) (st : GState),
        st.test_mode = false → st.current_player = 0 →
        ∀ n, (discardSeq now t st n).current_player = n % 4) := by
  refine ⟨?_, ?_, ?_, ?_⟩
  · intro now req st h1 h2
    unfold _handle_discard
    dsimp only
    rw [if_pos ⟨by simp [h1], Ne.symm h2⟩]
  · intro now req st h1 h2
    exact _handle_discard_advance now req st h1 h2
  · intro now req st h1
    unfold _handle_discard
    dsimp only
    rw [if_neg (by simp [h1])]
    rw [if_neg (by simp [h1])]
    exact ⟨rfl, rfl⟩
  · intro now t st h1 h2
    intro n
    induction n with
    | zero => simpa [discardSeq] using h2
    | succ n ih =>
      have htm : (discardSeq now t st n).test_mode = false := by
        rw [discardSeq_test_mode]; exact h1
      have h := _handle_discard_advance now
        (discardReq (discardSeq now t st n).current_player t)
        (discardSeq now t st n) htm rfl
      simp only [discardSeq]
      rw [h.2, ih]
      omega

theorem C6_turn_rotation_witness :
    ncState.test_mode = false
    ∧ _handle_discard 0 (discardReq 2 { type := TileType.wan, value := 1 }) ncState
        = (ncState, false, "不是该玩家的回合")
    ∧ (discardSeq 0 { type := TileType.wan, value := 1 } ncState 6).current_player
        = 6 % 4 :=
  ⟨rfl,
   C6_turn_rotation.1 0 (discardReq 2 { type := TileType.wan, value := 1 }) ncState
     rfl (by decide),
   C6_turn_rotation.2.2.2 0 { type := TileType.wan, value := 1 } ncState rfl rfl 6⟩

theorem findTileIdx_spec (t : Tile) : ∀ l : List Tile, t ∈ l →
    ∃ i, findTileIdx t l = some i ∧ l.eraseIdx i = l.erase t := by
  intro l
  induction l with
  | nil => intro h; exact absurd h (List.not_mem_nil t)
  | cons a rest ih =>
    intro h
    by_cases hat : a = t
    · refine ⟨0, by simp [findTileIdx, hat], ?_⟩
      subst hat
      simp [List.eraseIdx, List.erase_cons]
    · have ht : t ∈ rest := by
        rcases List.mem_cons.mp h with h1 | h1
        · exact absurd h1.symm hat
        · exact h1
      obtain ⟨i, hfind, herase⟩ := ih ht
      refine ⟨i + 1, ?_, ?_⟩
      · simp [findTileIdx, hat, hfind]
      · simp [List.eraseIdx, List.erase_cons, hat, herase]

theorem findTileIdx_none (t : Tile) : ∀ l : List Tile, t ∉ l →
    findTileIdx t l = none := by
  intro l
  induction l with
  | nil => intro _; rfl
  | cons a rest ih =>
    intro h
    have hat : a ≠ t := by
      intro he; exact h (he ▸ List.mem_cons_self a rest)
    have ht : t ∉ rest := fun hr => h (List.mem_cons_of_mem a hr)
    simp [findTileIdx, hat, ih ht]

theorem eraseIdx_append_singleton (t : Tile) : ∀ l : List Tile,
    (l ++ [t]).eraseIdx l.length = l := by
  intro l
  induction l with
  | nil => rfl
  | cons a rest ih => simp [List.eraseIdx, ih]

/-- C7 counterexample: an authorized discard of 5wan by seat 0, with 5wan
present in seat 0's tile list, succeeds but does not remove the tile from
the list — refuting the claimed hand-list removal in the discard
operation. -/
theorem C7_discard_counterexample :
    c7State.current_player = 0
    ∧ ({ type := TileType.wan, value := 5 } : Tile) ∈ (c7State.player_hands 0).tiles
    ∧ (_handle_discard 0 (discardReq 0 { type := TileType.wan, value := 5 }) c7State).2.1
        = true
    ∧ ((_handle_discard 0 (discardReq 0 { type := TileType.wan, value := 5 })
          c7State).1.player_hands 0).tiles
        = [{ type := TileType.wan, value := 5 }] := by
  refine ⟨rfl, ?_, rfl, rfl⟩
  simp [c7State, upd_same]

/-- C7 (amended): an authorized discard of tile T by seat s appends T to the
global discard pile and to seat s's per-player pile, leaves every seat's
tile list unchanged (the handler performs no hand mutation for any seat),
and succeeds whether or not T is in seat 0's list; hand-tile removal exists
only in the legacy `discard_tile` path, which removes one copy from the
discarding seat's own list when present (for any seat) and leaves the hand
unchanged when absent (it first adds the tile, then removes it). -/
theorem C7_discard_amended :
    (∀ (now : Nat) (req : TileOperationRequest) (st : GState),
        st.test_mode = true ∨ st.current_player = req.player_id →
        (_handle_discard now req st).2.1 = true
        ∧ (_handle_discard now req st).1.discarded_tiles
            = st.discarded_tiles ++ [req.tile]
        ∧ (_handle_discard now req st).1.player_discarded_tiles req.player_id
            = st.player_discarded_tiles req.player_id ++ [req.tile]
        ∧ (∀ q, q ≠ req.player_id →
            (_handle_discard now req st).1.player_discarded_tiles q
              = st.player_discarded_tiles q)
        ∧ (∀ q, (_handle_discard now req st).1.player_hands q = st.player_hands q))
    ∧ (∀ (t : Tile) (l : List Tile), t ∈ l → discard_tile_tiles t l = l.erase t)
    ∧ (∀ (t : Tile) (l : List Tile), t ∉ l → discard_tile_tiles t l = l) := by
  refine ⟨?_, ?_, ?_⟩
  · intro now req st h
    have hcond : ¬ (¬ st.test_mode ∧ st.current_player ≠ req.player_id) := by
      rcases h with h | h
      · simp [h]
      · simp [h]
    unfold _handle_discard
    dsimp only
    rw [if_neg hcond]
    by_cases htm : st.test_mode
    · rw [if_neg (by simp [htm])]
      exact ⟨rfl, rfl, upd_same _ _ _, fun q hq => upd_ne _ _ _ hq, fun q => rfl⟩
    · rw [if_pos (by simp [htm])]
      exact ⟨rfl, rfl, upd_same _ _ _, fun q hq => upd_ne _ _ _ hq, fun q => rfl⟩
  · intro t l h
    obtain ⟨i, hfind, herase⟩ := findTileIdx_spec t l h
    simp [discard_tile_tiles, hfind, herase]
  · intro t l h
    simp [discard_tile_tiles, findTileIdx_none t l h, eraseIdx_append_singleton]

theorem C7_discard_amended_witness :
    (ncState.test_mode = true ∨ ncState.current_player = 0)
    ∧ (_handle_discard 3 (discardReq 0 { type := TileType.tong, value := 3 })
          ncState).1.discarded_tiles = [] ++ [{ type := TileType.tong, value := 3 }]
    ∧ (({ type := TileType.wan, value := 2 } : Tile)
          ∉ ([{ type := TileType.wan, value := 7 }] : List Tile)
        ∧ discard_tile_tiles { type := TileType.wan, value := 2 }
            [{ type := TileType.wan, value := 7 }]
          = [{ type := TileType.wan, value := 7 }]) := by
  refine ⟨Or.inr rfl, ?_, by decide,
    C7_discard_amended.2.2 { type := TileType.wan, value := 2 }
      [{ type := TileType.wan, value := 7 }] (by decide)⟩
  exact (C7_discard_amended.1 3 (discardReq 0 { type := TileType.tong, value := 3 })
    ncState (Or.inr rfl)).2.1

theorem reduceOnce_length (p : Option Tile) (l : List Tile) (h : l ≠ []) :
    (reduceOnce p l).length + 1 = l.length := by
  match l with
  | [] => exact absurd rfl h
  | a :: rest =>
    cases p with
    | none => simp [reduceOnce]
    | some t =>
      simp only [reduceOnce]
      by_cases hm : t ∈ a :: rest
      · rw [if_pos hm]
        have hlen := List.length_erase_of_mem hm
        simp only [List.length_cons] at hlen ⊢
        omega
      · rw [if_neg hm]
        simp

theorem reduceIter_length (p : Option Tile) :
    ∀ (k : Nat) (l : List Tile), k ≤ l.length →
      ((reduceOnce p)^[k] l).length = l.length - k := by
  intro k
  induction k with
  | zero => intro l _; simp
  | succ k ih =>
    intro l h
    have hne : l ≠ [] := by
      intro he
      subst he
      simp at h
    rw [Function.iterate_succ_apply]
    have h1 := reduceOnce_length p l hne
    rw [ih (reduceOnce p l) (by omega)]
    omega

theorem _reduce_hand_tiles_length (k : Nat) (p : Option Tile) (l : List Tile) :
    (_reduce_hand_tiles k p l).length = l.length - k := by
  unfold _reduce_hand_tiles
  dsimp only
  have hpad : (l ++ List.replicate (k - l.length)
      ({ type := TileType.wan, value := 1 } : Tile)).length
      = l.length + (k - l.length) := by
    simp
  rw [reduceIter_length p k _ (by rw [hpad]; omega), hpad]
  omega

theorem reduceIter_count (t : Tile) :
    ∀ (k : Nat) (l : List Tile), k ≤ l.count t →
      ((reduceOnce (some t))^[k] l).count t = l.count t - k := by
  intro k
  induction k with
  | zero => intro l _; simp
  | succ k ih =>
    intro l h
    have hmem : t ∈ l := by
      have hpos : 0 < l.count t := by omega
      exact List.count_pos_iff.mp hpos
    have hstep : reduceOnce (some t) l = l.erase t := by
      match l with
      | [] => simp at hmem
      | a :: rest => simp [reduceOnce, hmem]
    rw [Function.iterate_succ_apply, hstep,
      ih (l.erase t) (by rw [List.count_erase_self]; omega),
      List.count_erase_self]
    omega

theorem _reduce_hand_tiles_count (k : Nat) (t : Tile) (l : List Tile)
    (h : k ≤ l.count t) :
    (_reduce_hand_tiles k (some t) l).count t = l.count t - k := by
  have hk : k - l.length = 0 := by
    have := List.count_le_length t l
    omega
  unfold _reduce_hand_tiles
  dsimp only
  rw [hk]
  simpa using reduceIter_count t k l h

/-- C2 counterexample: for seat 0 with a one-tile hand, the triplet claim
does not reduce the tracked quantity by exactly 2 — the hand is padded with
filler and cleared to 0, a reduction of 1 — refuting the universally
quantified "reduces by exactly 2 when s = 0". -/
theorem C2_triplet_claim_counterexample :
    (peng_tile 0 { type := TileType.wan, value := 5 } none
        { tiles := [{ type := TileType.wan, value := 1 }], melds := [] }).tiles.length = 0
    ∧ ¬ (((peng_tile 0 { type := TileType.wan, value := 5 } none
        { tiles := [{ type := TileType.wan, value := 1 }], melds := [] }).tiles.length : Int)
          = (1 : Int) - 2) := by
  exact ⟨by decide, by decide⟩

/-- C2 (amended): claiming a triplet of T appends a 3-tile exposed meld of T
and shrinks the seat's tile list by 2 for seat 0 and by 3 for seats 1-3,
truncated at zero (a hand shorter than the reduction is padded with filler
and ends empty); when the list holds at least that many copies of T, exactly
that many copies of T are consumed.  In particular a non-self seat with 13
tiles ends at 10, and seat 0 with 13 known tiles ends at 11. -/
theorem C2_triplet_claim_amended :
    ∀ (pid : Nat) (t : Tile) (sp : Option Nat) (h : HandTiles),
    (peng_tile pid t sp h).melds
        = h.melds ++ [{ type := MeldType.peng, tiles := [t, t, t], exposed := true }]
    ∧ (peng_tile pid t sp h).tiles.length
        = h.tiles.length - (if pid = 0 then 2 else 3)
    ∧ ((if pid = 0 then 2 else 3) ≤ h.tiles.count t →
        (peng_tile pid t sp h).tiles.count t
          = h.tiles.count t - (if pid = 0 then 2 else 3))
    ∧ ((if pid = 0 then 2 else 3) ≤ h.tiles.length →
        (peng_tile pid t sp h).tiles.length + (if pid = 0 then 2 else 3)
          = h.tiles.length) := by
  intro pid t sp h
  refine ⟨rfl, ?_, ?_, ?_⟩
  · exact _reduce_hand_tiles_length _ _ _
  · intro hc
    exact _reduce_hand_tiles_count _ _ _ hc
  · intro hl
    have := _reduce_hand_tiles_length (if pid = 0 then 2 else 3) (some t) h.tiles
    simp only [peng_tile]
    omega

theorem C2_triplet_claim_amended_witness :
    ((3 : Nat) ≤ (List.replicate 3 ({ type := TileType.wan, value := 5 } : Tile)
        ++ List.replicate 10 ({ type := TileType.tong, value := 1 } : Tile)).count
          ({ type := TileType.wan, value := 5 } : Tile)
      ∧ (peng_tile 1 { type := TileType.wan, value := 5 } none
          { tiles := List.replicate 3 { type := TileType.wan, value := 5 }
              ++ List.replicate 10 { type := TileType.tong, value := 1 },
            melds := [] }).tiles.count { type := TileType.wan, value := 5 } = 3 - 3)
    ∧ (peng_tile 1 { type := TileType.wan, value := 5 } none
        { tiles := List.replicate 3 { type := TileType.wan, value := 5 }
            ++ List.replicate 10 { type := TileType.tong, value := 1 },
          melds := [] }).tiles.length = 10
    ∧ (peng_tile 0 { type := TileType.wan, value := 5 } none
        { tiles := List.replicate 2 { type := TileType.wan, value := 5 }
            ++ List.replicate 11 { type := TileType.tong, value := 1 },
          melds := [] }).tiles.length = 11 := by
  refine ⟨⟨by decide, ?_⟩, ?_, ?_⟩
  · have := (C2_triplet_claim_amended 1 { type := TileType.wan, value := 5 } none
      { tiles := List.replicate 3 { type := TileType.wan, value := 5 }
          ++ List.replicate 10 { type := TileType.tong, value := 1 },
        melds := [] }).2.2.1 (by decide)
    simpa using this
  · have := (C2_triplet_claim_amended 1 { type := TileType.wan, value := 5 } none
      { tiles := List.replicate 3 { type := TileType.wan, value := 5 }
          ++ List.replicate 10 { type := TileType.tong, value := 1 },
        melds := [] }).2.1
    simpa using this
  · have := (C2_triplet_claim_amended 0 { type := TileType.wan, value := 5 } none
      { tiles := List.replicate 2 { type := TileType.wan, value := 5 }
          ++ List.replicate 11 { type := TileType.tong, value := 1 },
        melds := [] }).2.1
    simpa using this

/-- C3 counterexample: a concealed kong on an empty hand leaves the tile
list at length 0 — a reduction of 0, not 4 — refuting the universally
quantified fixed reduction amounts. -/
theorem C3_kong_counterexample :
    (gang_tile 1 { type := TileType.wan, value := 5 } GangType.an_gang none
        { tiles := [], melds := [] }).tiles.length = 0
    ∧ ¬ (((gang_tile 1 { type := TileType.wan, value := 5 } GangType.an_gang none
        { tiles := [], melds := [] }).tiles.length : Int) = (0 : Int) - 4) := by
  exact ⟨by decide, by decide⟩

/-- C3 (amended): a kong appends a 4-tile meld of the claimed tile (exposed
unless concealed) and shrinks the seat's tile list by the variant-fixed
amount — 4 for a concealed kong (every seat), 3 for seat 0 / 4 for seats 1-3
for a claimed kong, 1 for a promoted kong — truncated at zero (hands shorter
than the reduction are padded with filler and end empty); the reduction is
exact whenever the hand holds at least that many tiles. -/
theorem C3_kong_amended :
    ∀ (pid : Nat) (t : Tile) (g : GangType) (sp : Option Nat) (h : HandTiles),
    (gang_tile pid t g sp h).melds
        = h.melds ++ [{ type := MeldType.gang, tiles := [t, t, t, t],
                        exposed := decide (g ≠ GangType.an_gang) }]
    ∧ (gang_tile pid t g sp h).tiles.length
        = h.tiles.length -
            (match g with
             | GangType.an_gang => 4
             | GangType.ming_gang => if pid = 0 then 3 else 4
             | GangType.jia_gang => 1)
    ∧ ((match g with
        | GangType.an_gang => 4
        | GangType.ming_gang => if pid = 0 then 3 else 4
        | GangType.jia_gang => 1) ≤ h.tiles.length →
        (gang_tile pid t g sp h).tiles.length +
            (match g with
             | GangType.an_gang => 4
             | GangType.ming_gang => if pid = 0 then 3 else 4
             | GangType.jia_gang => 1)
          = h.tiles.length) := by
  intro pid t g sp h
  have hlen : (gang_tile pid t g sp h).tiles.length
      = h.tiles.length -
          (match g with
           | GangType.an_gang => 4
           | GangType.ming_gang => if pid = 0 then 3 else 4
           | GangType.jia_gang => 1) := by
    cases g with
    | an_gang =>
      simpa [gang_tile, ite_self] using
        _reduce_hand_tiles_length (if pid = 0 then 4 else 4) (some t) h.tiles
    | ming_gang =>
      simpa [gang_tile] using
        _reduce_hand_tiles_length (if pid = 0 then 3 else 4) (some t) h.tiles
    | jia_gang =>
      simpa [gang_tile] using _reduce_hand_tiles_length 1 (some t) h.tiles
  exact ⟨rfl, hlen, fun hl => by omega⟩

theorem C3_kong_amended_witness :
    ((4 : Nat) ≤ (List.replicate 14 ({ type := TileType.tiao, value := 2 } : Tile)).length
      ∧ (gang_tile 2 { type := TileType.tiao, value := 2 } GangType.an_gang none
          { tiles := List.replicate 14 { type := TileType.tiao, value := 2 },
            melds := [] }).tiles.length + 4 = 14)
    ∧ (gang_tile 0 { type := TileType.tiao, value := 2 } GangType.ming_gang none
        { tiles := List.replicate 14 { type := TileType.tiao, value := 2 },
          melds := [] }).tiles.length = 14 - 3
    ∧ (gang_tile 3 { type := TileType.tiao, value := 2 } GangType.jia_gang none
        { tiles := List.replicate 14 { type := TileType.tiao, value := 2 },
          melds := [] }).tiles.length = 14 - 1 := by
  refine ⟨⟨by decide, ?_⟩, ?_, ?_⟩
  · have := (C3_kong_amended 2 { type := TileType.tiao, value := 2 } GangType.an_gang
      none { tiles := List.replicate 14 { type := TileType.tiao, value := 2 },
             melds := [] }).2.2 (by decide)
    simpa using this
  · have := (C3_kong_amended 0 { type := TileType.tiao, value := 2 } GangType.ming_gang
      none { tiles := List.replicate 14 { type := TileType.tiao, value := 2 },
             melds := [] }).2.1
    simpa using this
  · have := (C3_kong_amended 3 { type := TileType.tiao, value := 2 } GangType.jia_gang
      none { tiles := List.replicate 14 { type := TileType.tiao, value := 2 },
             melds := [] }).2.1
    simpa using this

theorem removeMatchingPeng_countP (t : Tile) :
    ∀ (l : List DMeld) (m : DMeld), findMatchingPeng t l = some m →
      (removeMatchingPeng t l).countP (isMatchingPeng t) + 1
        = l.countP (isMatchingPeng t) := by
  intro l
  induction l with
  | nil => intro m h; simp [findMatchingPeng] at h
  | cons a rest ih =>
    intro m h
    by_cases ha : isMatchingPeng t a
    · simp [removeMatchingPeng, ha, List.countP_cons]
    · simp only [findMatchingPeng, if_neg ha] at h
      simp [removeMatchingPeng, ha, List.countP_cons, ih m h]

/-- C1 counterexample: a promoted-kong (`jiagang`) request for a tile with
no matching triplet in the hand does not fail — it succeeds and appends a
kong meld anyway — refuting the claimed `NoMatchingTripletError` branch. -/
theorem C1_promoted_kong_counterexample :
    findMatchingPeng jiagangReq.tile (testState.player_hands 1).melds = none
    ∧ (_handle_gang "m1" 0 jiagangReq testState).2.1 = true
    ∧ ((_handle_gang "m1" 0 jiagangReq testState).1.player_hands 1).melds.length = 1 :=
  ⟨rfl, rfl, rfl⟩

/-- C1 (amended): the promoted-kong handler always succeeds.  When the hand
holds a triplet (peng) meld of T, it removes the first such meld and appends
a 4-tile exposed kong whose `original_peng_id` references the removed meld's
identifier — one fewer triplet of T — but no tracked tile quantity changes
(the handler never touches any seat's tile list).  When no triplet of T
exists, the operation still succeeds and appends a kong with
`original_peng_id = none` instead of failing. -/
theorem C1_promoted_kong_amended :
    ∀ (nid : String) (now : Nat) (req : TileOperationRequest) (st : GState),
    req.operation_type = "jiagang" →
    (_handle_gang nid now req st).2.1 = true
    ∧ (∀ q, ((_handle_gang nid now req st).1.player_hands q).tiles
        = (st.player_hands q).tiles)
    ∧ (∀ m, findMatchingPeng req.tile (st.player_hands req.player_id).melds = some m →
        ((_handle_gang nid now req st).1.player_hands req.player_id).melds
          = removeMatchingPeng req.tile (st.player_hands req.player_id).melds
            ++ [{ id := nid, type := "gang",
                  tiles := [req.tile, req.tile, req.tile, req.tile],
                  exposed := true, gang_type := some "jia_gang",
                  source_player := none, original_peng_id := some m.id,
                  timestamp := now }]
        ∧ ((_handle_gang nid now req st).1.player_hands req.player_id).melds.countP
            (isMatchingPeng req.tile) + 1
          = (st.player_hands req.player_id).melds.countP (isMatchingPeng req.tile))
    ∧ (findMatchingPeng req.tile (st.player_hands req.player_id).melds = none →
        ((_handle_gang nid now req st).1.player_hands req.player_id).melds
          = (st.player_hands req.player_id).melds
            ++ [{ id := nid, type := "gang",
                  tiles := [req.tile, req.tile, req.tile, req.tile],
                  exposed := true, gang_type := some "jia_gang",
                  source_player := none, original_peng_id := none,
                  timestamp := now }]) := by
  intro nid now req st hop
  have hsucc : (_handle_gang nid now req st).2.1 = true := rfl
  have htiles : ∀ q, ((_handle_gang nid now req st).1.player_hands q).tiles
      = (st.player_hands q).tiles := by
    intro q
    rcases hf : findMatchingPeng req.tile (st.player_hands req.player_id).melds with
        _ | m <;> by_cases hq : q = req.player_id
    · subst hq; simp [_handle_gang, hop, hf, upd]
    · simp [_handle_gang, hop, hf, upd, hq]
    · subst hq; simp [_handle_gang, hop, hf, upd]
    · simp [_handle_gang, hop, hf, upd, hq]
  have hsome : ∀ m, findMatchingPeng req.tile (st.player_hands req.player_id).melds
        = some m →
      ((_handle_gang nid now req st).1.player_hands req.player_id).melds
        = removeMatchingPeng req.tile (st.player_hands req.player_id).melds
          ++ [{ id := nid, type := "gang",
                tiles := [req.tile, req.tile, req.tile, req.tile],
                exposed := true, gang_type := some "jia_gang",
                source_player := none, original_peng_id := some m.id,
                timestamp := now }] := by
    intro m hf
    simp [_handle_gang, hop, hf, upd, gangTypeMap]
  have hnone : findMatchingPeng req.tile (st.player_hands req.player_id).melds = none →
      ((_handle_gang nid now req st).1.player_hands req.player_id).melds
        = (st.player_hands req.player_id).melds
          ++ [{ id := nid, type := "gang",
                tiles := [req.tile, req.tile, req.tile, req.tile],
                exposed := true, gang_type := some "jia_gang",
                source_player := none, original_peng_id := none,
                timestamp := now }] := by
    intro hf
    simp [_handle_gang, hop, hf, upd, gangTypeMap]
  refine ⟨hsucc, htiles, ?_, hnone⟩
  intro m hf
  refine ⟨hsome m hf, ?_⟩
  rw [hsome m hf, List.countP_append]
  have hg : isMatchingPeng req.tile
      { id := nid, type := "gang",
        tiles := [req.tile, req.tile, req.tile, req.tile],
        exposed := true, gang_type := some "jia_gang",
        source_player := none, original_peng_id := some m.id,
        timestamp := now } = false := by
    simp [isMatchingPeng]
  have hone : List.countP (isMatchingPeng req.tile)
      [({ id := nid, type := "gang",
          tiles := [req.tile, req.tile, req.tile, req.tile],
          exposed := true, gang_type := some "jia_gang",
          source_player := none, original_peng_id := some m.id,
          timestamp := now } : DMeld)] = 0 := by
    simp [List.countP_cons, hg]
  rw [hone]
  have := removeMatchingPeng_countP req.tile
    (st.player_hands req.player_id).melds m hf
  omega

theorem C1_promoted_kong_amended_witness :
    jiagangReq.operation_type = "jiagang"
    ∧ findMatchingPeng jiagangReq.tile (c1State.player_hands 1).melds = some c1Peng
    ∧ ((_handle_gang "m1" 7 jiagangReq c1State).1.player_hands 1).melds.countP
          (isMatchingPeng jiagangReq.tile) + 1
        = (c1State.player_hands 1).melds.countP (isMatchingPeng jiagangReq.tile) := by
  refine ⟨rfl, by decide, ?_⟩
  exact ((C1_promoted_kong_amended "m1" 7 jiagangReq c1State rfl).2.2.1
    c1Peng (by decide)).2

/-- C8 counterexample: with a failing store, replacing the game state applies
the in-memory mutation and leaves the persisted document stale — yet still
reports success, refuting "surfaced to the caller as a failure result". -/
theorem C8_save_failure_counterexample :
    storeDown.ok = false
    ∧ set_game_state_dict c7State storeDown = (c7State, storeDown, true)
    ∧ (set_game_state_dict c7State storeDown).2.1.doc = some ncState :=
  ⟨rfl, rfl, rfl⟩

/-- C8 (amended): a persistence write failure during the concluding save is
swallowed (only logged): the operation reports success regardless, the
in-memory state keeps the applied mutation with no rollback, and the
persisted document is left stale, so the persisted and in-memory views may
diverge until the next successful save. -/
theorem C8_save_failure_amended :
    ∀ (newState : GState) (store : Store),
    set_game_state_dict newState store = (newState, _save_state newState store, true)
    ∧ (store.ok = false → _save_state newState store = store)
    ∧ (store.ok = true → (_save_state newState store).doc = some newState) := by
  intro newState store
  refine ⟨rfl, ?_, ?_⟩
  · intro h
    simp [_save_state, h]
  · intro h
    simp [_save_state, h]

theorem C8_save_failure_amended_witness :
    storeDown.ok = false ∧ _save_state ncState storeDown = storeDown :=
  ⟨rfl, (C8_save_failure_amended ncState storeDown).2.1 rfl⟩

/-- C9 counterexample: the hand-update operation appends a concrete tile
identity to seat 1's tile list, refuting "no mutating operation ever adds a
concrete tile identity to the hand of seats 1, 2 or 3" (and with it the
claimed count-only treatment of those seats). -/
theorem C9_asymmetry_counterexample :
    ((add_tile_to_hand 0 1 { type := TileType.tong, value := 9 }
        testState).1.player_hands 1).tiles
      = [{ type := TileType.tong, value := 9 }] := rfl

/-- C9 (amended): the hand-update operation treats every seat uniformly —
for any seat 0-3 it appends the concrete tile to that seat's tile list
(seats 1-3 receive concrete tile identities exactly like seat 0), changes no
meld list and no other seat, and reports success.  The claimed count-only
asymmetry for seats 1-3 does not exist in the service's hand mutations; a
signed-delta counter update exists only in the separate add-hand-count API
endpoint. -/
theorem C9_asymmetry_amended :
    ∀ (now pid : Nat) (t : Tile) (st : GState),
    (add_tile_to_hand now pid t st).2 = true
    ∧ ((add_tile_to_hand now pid t st).1.player_hands pid).tiles
        = (st.player_hands pid).tiles ++ [t]
    ∧ ((add_tile_to_hand now pid t st).1.player_hands pid).melds
        = (st.player_hands pid).melds
    ∧ (∀ q, q ≠ pid →
        (add_tile_to_hand now pid t st).1.player_hands q = st.player_hands q) := by
  intro now pid t st
  refine ⟨rfl, ?_, ?_, ?_⟩
  · simp [add_tile_to_hand, upd_same]
  · simp [add_tile_to_hand, upd_same]
  · intro q hq
    simp [add_tile_to_hand, upd_ne _ _ _ hq]

theorem C9_asymmetry_amended_witness :
    (2 : Nat) ≠ 3
    ∧ (add_tile_to_hand 0 3 { type := TileType.wan, value := 9 }
          testState).1.player_hands 2
        = testState.player_hands 2 :=
  ⟨by decide,
   (C9_asymmetry_amended 0 3 { type := TileType.wan, value := 9 } testState).2.2.2
     2 (by decide)⟩

theorem dealLoop_ok (pid : Nat) :
    ∀ (n : Nat) (st : GState), n ≤ st.tile_pool.length →
      ∃ st1 extra, dealLoop pid n st = Except.ok st1
        ∧ extra.length = n
        ∧ (st1.player_hands pid).tiles = (st.player_hands pid).tiles ++ extra
        ∧ (st1.player_hands pid).melds = (st.player_hands pid).melds
        ∧ (∀ q, q ≠ pid → st1.player_hands q = st.player_hands q)
        ∧ st1.tile_pool = st.tile_pool.take (st.tile_pool.length - n)
        ∧ st1.game_started = st.game_started := by
  intro n
  induction n with
  | zero =>
    intro st _
    exact ⟨st, [], rfl, rfl, by simp, rfl, fun q _ => rfl,
      by simp [List.take_length], rfl⟩
  | succ n ih =>
    intro st h
    have hne : st.tile_pool ≠ [] := by
      intro he
      rw [he] at h
      simp at h
    rcases hp : st.tile_pool.getLast? with _ | tl
    · exact absurd (List.getLast?_eq_none_iff.mp hp) hne
    · have hlen1 : 0 < st.tile_pool.length := List.length_pos.mpr hne
      obtain ⟨st1, extra, hok, hexlen, htiles, hmelds, hothers, hpool, hstarted⟩ :=
        ih { st with
          tile_pool := st.tile_pool.dropLast
          player_hands := upd st.player_hands pid
            { st.player_hands pid with
              tiles := (st.player_hands pid).tiles ++ [tl] } }
          (by simp [List.length_dropLast]; omega)
      refine ⟨st1, tl :: extra, ?_, by simp [hexlen], ?_, ?_, ?_, ?_, ?_⟩
      · simp only [dealLoop, hp]
        exact hok
      · rw [htiles]
        simp [upd_same, List.append_assoc]
      · rw [hmelds]
        simp [upd_same]
      · intro q hq
        rw [hothers q hq]
        simp [upd_ne _ _ _ hq]
      · rw [hpool]
        simp only [List.length_dropLast, List.dropLast_eq_take, List.take_take,
          List.length_take]
        congr 1
        omega
      · rw [hstarted]

theorem dealLoop_short (pid : Nat) :
    ∀ (n : Nat) (st : GState), st.tile_pool.length < n →
      ∃ st1, dealLoop pid n st = Except.error (st1, "牌库不足") := by
  intro n
  induction n with
  | zero =>
    intro st h
    exact absurd h (Nat.not_lt_zero _)
  | succ n ih =>
    intro st h
    rcases hp : st.tile_pool.getLast? with _ | tl
    · exact ⟨st, by simp [dealLoop, hp]⟩
    · have hne : st.tile_pool ≠ [] := by
        intro he
        rw [he] at hp
        simp at hp
      have hpos : 0 < st.tile_pool.length := List.length_pos.mpr hne
      obtain ⟨st1, herr⟩ := ih { st with
          tile_pool := st.tile_pool.dropLast
          player_hands := upd st.player_hands pid
            { st.player_hands pid with
              tiles := (st.player_hands pid).tiles ++ [tl] } }
        (by simp [List.length_dropLast]; omega)
      refine ⟨st1, ?_⟩
      simp only [dealLoop, hp]
      exact herr

theorem dealAll_ok : ∀ (ps : List Nat) (st : GState), ps.Nodup →
    13 * ps.length ≤ st.tile_pool.length →
    ∃ st1, dealAll ps st = Except.ok st1
      ∧ st1.tile_pool = st.tile_pool.take (st.tile_pool.length - 13 * ps.length)
      ∧ (∀ q, q ∈ ps → ∃ extra : List Tile, extra.length = 13
          ∧ (st1.player_hands q).tiles = (st.player_hands q).tiles ++ extra
          ∧ (st1.player_hands q).melds = (st.player_hands q).melds)
      ∧ (∀ q, q ∉ ps → st1.player_hands q = st.player_hands q)
      ∧ st1.game_started = st.game_started := by
  intro ps
  induction ps with
  | nil =>
    intro st _ _
    exact ⟨st, rfl, by simp [List.take_length], by simp, fun q _ => rfl, rfl⟩
  | cons p ps ih =>
    intro st hnd h
    have hlc : (p :: ps).length = ps.length + 1 := List.length_cons p ps
    have hp13 : 13 ≤ st.tile_pool.length := by
      rw [hlc] at h
      omega
    obtain ⟨st2, extra, hok, hexlen, htiles, hmelds, hothers, hpool, hstarted⟩ :=
      dealLoop_ok p 13 st hp13
    have hlen2 : st2.tile_pool.length = st.tile_pool.length - 13 := by
      rw [hpool, List.length_take]
      omega
    have hpnotin : p ∉ ps := (List.nodup_cons.mp hnd).1
    obtain ⟨st1, hok1, hpool1, hmem1, hnotmem1, hstarted1⟩ :=
      ih st2 (List.nodup_cons.mp hnd).2 (by rw [hlen2]; rw [hlc] at h; omega)
    refine ⟨st1, ?_, ?_, ?_, ?_, ?_⟩
    · simp only [dealAll, hok]
      exact hok1
    · rw [hpool1, hlen2, hpool, List.take_take, hlc]
      congr 1
      omega
    · intro q hq
      rcases List.mem_cons.mp hq with rfl | hq2
      · exact ⟨extra, hexlen, by rw [hnotmem1 q hpnotin, htiles],
          by rw [hnotmem1 q hpnotin, hmelds]⟩
      · obtain ⟨extra2, hl2, ht2, hm2⟩ := hmem1 q hq2
        have hqp : q ≠ p := fun he => hpnotin (he ▸ hq2)
        exact ⟨extra2, hl2, by rw [ht2, hothers q hqp],
          by rw [hm2, hothers q hqp]⟩
    · intro q hq
      have h1 : q ∉ ps := fun hh => hq (List.mem_cons_of_mem _ hh)
      have h2 : q ≠ p := fun he => hq (he ▸ List.mem_cons_self p ps)
      rw [hnotmem1 q h1, hothers q h2]
    · rw [hstarted1, hstarted]

theorem dealAll_short : ∀ (ps : List Nat) (st : GState),
    st.tile_pool.length < 13 * ps.length →
    ∃ st1, dealAll ps st = Except.error (st1, "牌库不足") := by
  intro ps
  induction ps with
  | nil =>
    intro st h
    simp at h
  | cons p ps ih =>
    intro st h
    by_cases h13 : st.tile_pool.length < 13
    · obtain ⟨st1, herr⟩ := dealLoop_short p 13 st h13
      exact ⟨st1, by simp only [dealAll, herr]⟩
    · push_neg at h13
      obtain ⟨st2, extra, hok, _, _, _, _, hpool, _⟩ := dealLoop_ok p 13 st h13
      have hlen2 : st2.tile_pool.length = st.tile_pool.length - 13 := by
        rw [hpool, List.length_take]
        omega
      obtain ⟨st1, herr⟩ := ih st2 (by
        rw [hlen2]
        rw [List.length_cons] at h
        omega)
      refine ⟨st1, ?_⟩
      simp only [dealAll, hok]
      exact herr

/-- C10: `start_game` fails with a message when the game has already started,
leaving the state unchanged; otherwise, with a sufficient pool, it removes
exactly 13 tiles per player (52 in total) from the end of the draw pile,
appends them as concrete tiles to every one of the four seats' tile lists
(seats 1-3 included), sets the started flag and succeeds; with fewer than 52
tiles the deal runs out mid-deal and it fails with the pool-exhausted
message. -/
theorem C10_start_game : ∀ st : GState,
    (st.game_started = true → start_game st = (st, false, "游戏已经开始"))
    ∧ (st.game_started = false → 52 ≤ st.tile_pool.length →
        (start_game st).2.1 = true
        ∧ (start_game st).2.2 = "游戏开始，发牌完成"
        ∧ (start_game st).1.game_started = true
        ∧ (start_game st).1.tile_pool = st.tile_pool.take (st.tile_pool.length - 52)
        ∧ (∀ p, p < 4 → ∃ extra : List Tile, extra.length = 13
            ∧ ((start_game st).1.player_hands p).tiles
                = (st.player_hands p).tiles ++ extra))
    ∧ (st.game_started = false → st.tile_pool.length < 52 →
        (start_game st).2.1 = false ∧ (start_game st).2.2 = "牌库不足") := by
  intro st
  refine ⟨?_, ?_, ?_⟩
  · intro h
    simp [start_game, h]
  · intro h0 h52
    obtain ⟨st1, hok, hpool, hmem, _, _⟩ := dealAll_ok [0, 1, 2, 3] st (by decide)
      (by simpa using h52)
    have hsg : start_game st
        = ({ st1 with game_started := true }, true, "游戏开始，发牌完成") := by
      simp [start_game, h0, hok]
    refine ⟨by rw [hsg], by rw [hsg], by rw [hsg], ?_, ?_⟩
    · rw [hsg]
      simpa using hpool
    · intro p hp
      have hpmem : p ∈ ([0, 1, 2, 3] : List Nat) := by
        interval_cases p <;> decide
      obtain ⟨extra, hl, ht, _⟩ := hmem p hpmem
      refine ⟨extra, hl, ?_⟩
      rw [hsg]
      exact ht
  · intro h0 h52
    obtain ⟨st1, herr⟩ := dealAll_short [0, 1, 2, 3] st (by simpa using h52)
    constructor <;> simp [start_game, h0, herr]

theorem C10_start_game_witness :
    dealState.game_started = false
    ∧ 52 ≤ dealState.tile_pool.length
    ∧ (start_game dealState).2.1 = true
    ∧ (start_game dealState).1.game_started = true := by
  have h := (C10_start_game dealState).2.1 rfl (by decide)
  exact ⟨rfl, by decide, h.1, h.2.2.1⟩

end Mahjong
